import Mathlib

/-!
Verification of the tiering / override-resolution core of the OffsetApps
allocation console. The TypeScript components `AllocationOverview`,
`AllocationTiers` and `TierProductOverrides` are shallowly embedded:
timestamps become integers (milliseconds), JavaScript number arithmetic on
the progress path is modelled with an explicit NaN/infinity-aware type, the
Supabase relations become lists of rows inside a `Store`, and each handler
becomes a pure function on that state.
-/

namespace OffsetApps

/-- Milliseconds per day, the divisor `1000 * 60 * 60 * 24` used by
`AllocationOverview`. -/
def msPerDay : ℤ := 1000 * 60 * 60 * 24

/-- Result of a JavaScript floating-point computation on the progress path:
either a finite (here exact rational) value, one of the two infinities, or
NaN. -/
inductive JsNum where
  | nan : JsNum
  | posInf : JsNum
  | negInf : JsNum
  | fin : ℚ → JsNum
deriving DecidableEq, Repr

/-- JavaScript division of two finite numbers: finite quotient when the
divisor is nonzero, otherwise a signed infinity, and NaN for `0 / 0`. -/
def jsDiv (a b : ℚ) : JsNum :=
  if b ≠ 0 then JsNum.fin (a / b)
  else if a > 0 then JsNum.posInf
  else if a < 0 then JsNum.negInf
  else JsNum.nan

/-- Multiplication of a JavaScript number by the positive constant 100. -/
def jsMul100 : JsNum → JsNum
  | JsNum.nan => JsNum.nan
  | JsNum.posInf => JsNum.posInf
  | JsNum.negInf => JsNum.negInf
  | JsNum.fin q => JsNum.fin (q * 100)

/-- `Math.max(0, x)`: NaN propagates, `-Infinity` clamps to 0. -/
def jsMax0 : JsNum → JsNum
  | JsNum.nan => JsNum.nan
  | JsNum.posInf => JsNum.posInf
  | JsNum.negInf => JsNum.fin 0
  | JsNum.fin q => JsNum.fin (max 0 q)

/-- `Math.min(100, x)`: NaN propagates, `+Infinity` clamps to 100. -/
def jsMin100 : JsNum → JsNum
  | JsNum.nan => JsNum.nan
  | JsNum.posInf => JsNum.fin 100
  | JsNum.negInf => JsNum.negInf
  | JsNum.fin q => JsNum.fin (min 100 q)

/-- Exact integer form of `Math.ceil(a / b)` for a positive integer divisor
`b` (timestamps and their differences are integers, so the quotient is an
exact rational; see `ceilDiv_eq_ceil`). -/
def ceilDiv (a b : ℤ) : ℤ := -((-a) / b)

/-- `ceilDiv` agrees with the rational ceiling of the exact quotient. -/
theorem ceilDiv_eq_ceil (a : ℤ) (d : ℕ) :
    ceilDiv a d = Int.ceil ((a : ℚ) / (d : ℚ)) := by
  rw [ceilDiv, show ((a : ℚ) / (d : ℚ)) = -(((-a : ℤ) : ℚ) / (d : ℚ)) by push_cast; ring,
    Int.ceil_neg, Rat.floor_intCast_div_natCast]

/-- `Math.ceil((endT - nowT) / msPerDay)` from `AllocationOverview`:
days remaining until the allocation's end date. -/
def daysRemaining (endT nowT : ℤ) : ℤ :=
  ceilDiv (endT - nowT) msPerDay

/-- `Math.ceil((endT - startT) / msPerDay)` from `AllocationOverview`:
total length of the allocation window in days. -/
def daysTotal (startT endT : ℤ) : ℤ :=
  ceilDiv (endT - startT) msPerDay

/-- The progress computation of `AllocationOverview`:
`Math.min(100, Math.max(0, ((daysTotal - daysRemaining) / daysTotal) * 100))`
with JavaScript semantics for the division by a possibly-zero `daysTotal`. -/
def computeProgress (startT endT nowT : ℤ) : JsNum :=
  let dT := daysTotal startT endT
  let dR := daysRemaining endT nowT
  jsMin100 (jsMax0 (jsMul100 (jsDiv ((dT - dR : ℤ) : ℚ) ((dT : ℤ) : ℚ))))

/-! ### Customer source selection (`AllocationTiers`) -/

/-- The five source kinds of `CUSTOMER_SOURCES`. -/
inductive SourceId where
  | query : SourceId
  | tag : SourceId
  | group : SourceId
  | club : SourceId
  | search : SourceId
deriving DecidableEq, Repr

/-- One selectable item of a source kind: id, display name, optional
customer cardinality (the `{ id, name, count? }` objects). -/
structure SourceItem where
  id : String
  name : String
  count : Option Nat
deriving DecidableEq, Repr

/-- A committed per-kind selection entry (`SelectedSource` in
`AllocationTiers.tsx`). -/
structure SelectedSource where
  sourceId : SourceId
  items : List SourceItem
deriving DecidableEq, Repr

/-- The `MOCK_ITEM_DATA` record of `AllocationTiers.tsx`, mapping an item id
to its display name and optional count. -/
def MOCK_ITEM_DATA : String → Option (String × Option Nat)
  | "q1" => some ("High Value Customers", some 150)
  | "q2" => some ("Recent Purchasers", some 75)
  | "q3" => some ("Club Members", some 200)
  | "t1" => some ("VIP", some 150)
  | "t2" => some ("Collector", some 75)
  | "t3" => some ("Early Access", some 200)
  | "g1" => some ("West Coast", some 500)
  | "g2" => some ("East Coast", some 300)
  | "g3" => some ("Trade", some 100)
  | "c1" => some ("Reserve Club", some 250)
  | "c2" => some ("Reds Only", some 175)
  | "c3" => some ("Mixed Club", some 300)
  | "cust1" => some ("John Doe", none)
  | "cust2" => some ("Jane Smith", none)
  | "cust3" => some ("Bob Wilson", none)
  | _ => none

/-- The selection-relevant component state of `AllocationTiers`:
the active source kind, the working item-id list for that kind, and the
committed per-kind entries. -/
structure TierSelectionState where
  selectedSource : SourceId
  selectedItems : List String
  selectedSources : List SelectedSource
deriving DecidableEq, Repr

/-- Initial state: `useState('query')`, `useState([])`, `useState([])`. -/
def initialSelectionState : TierSelectionState :=
  { selectedSource := SourceId.query, selectedItems := [], selectedSources := [] }

/-- `handleSourceChange`: activate a source kind and clear the working
item list; `selectedSources` is not touched. -/
def handleSourceChange (source : SourceId) (st : TierSelectionState) :
    TierSelectionState :=
  { st with selectedSource := source, selectedItems := [] }

/-- Replace the first entry whose `sourceId` matches, else append a new
entry at the end — the `findIndex` / `-1`-append / assign-at-index logic of
`handleItemSelect`. -/
def upsertSource (cur : SourceId) (items : List SourceItem) :
    List SelectedSource → List SelectedSource
  | [] => [{ sourceId := cur, items := items }]
  | s :: rest =>
    if s.sourceId == cur then { sourceId := cur, items := items } :: rest
    else s :: upsertSource cur items rest

/-- The items of the active kind rebuilt from the working id list
(`newItems.filter(MOCK_ITEM_DATA).map(...)` in `handleItemSelect`). -/
def itemsOf (ids : List String) : List SourceItem :=
  (ids.filter (fun i => (MOCK_ITEM_DATA i).isSome)).map
    (fun i =>
      match MOCK_ITEM_DATA i with
      | some d => { id := i, name := d.1, count := d.2 }
      | none => { id := i, name := "", count := none })

/-- `handleItemSelect`: toggle `id` in the working list of the active kind,
then rewrite that kind's committed entry (dropping it when the working list
became empty). -/
def handleItemSelect (id : String) (st : TierSelectionState) :
    TierSelectionState :=
  let newItems :=
    if st.selectedItems.contains id then st.selectedItems.filter (fun i => i != id)
    else st.selectedItems ++ [id]
  let cur := st.selectedSource
  let newSources :=
    if newItems.isEmpty then
      st.selectedSources.filter (fun s => s.sourceId != cur)
    else
      upsertSource cur (itemsOf newItems) st.selectedSources
  { st with selectedItems := newItems, selectedSources := newSources }

/-- `removeSource`: drop a kind's committed entry; clear the working list
when that kind is the active one. -/
def removeSource (sourceId : SourceId) (st : TierSelectionState) :
    TierSelectionState :=
  { st with
    selectedSources := st.selectedSources.filter (fun s => s.sourceId != sourceId),
    selectedItems := if sourceId == st.selectedSource then [] else st.selectedItems }

/-- JavaScript `item.count || 1`: a missing — or zero, hence falsy — count
is counted as one customer. -/
def countOrOne (c : Option Nat) : Nat :=
  match c with
  | some n => if n = 0 then 1 else n
  | none => 1

/-- `totalCustomers`: the summed cardinality estimate over every committed
entry and item. -/
def totalCustomers (sources : List SelectedSource) : Nat :=
  sources.foldl
    (fun total source =>
      total + source.items.foldl (fun sum item => sum + countOrOne item.count) 0)
    0

/-! ### Data model rows and the row store -/

/-- A requirements override bundle `{cartMin?, cartMax?, minAmount?}`. -/
structure Requirements where
  cartMin : Option ℚ
  cartMax : Option ℚ
  minAmount : Option ℚ
deriving DecidableEq, Repr

/-- A discount override `{type?, amount?}`; the type is `percentage` or
`fixed`. -/
structure Discount where
  type : Option Bool
  amount : Option ℚ
deriving DecidableEq, Repr

/-- A shipping override `{method?, type?, amount?}`. -/
structure Shipping where
  method : Option String
  type : Option Bool
  amount : Option ℚ
deriving DecidableEq, Repr

/-- A row of the `allocation_tiers` relation (the columns selected by
`fetchTiers`). -/
structure TierRow where
  id : String
  allocation_id : String
  name : String
  level : Nat
  access_start : String
  access_end : String
  customer_count : Nat
deriving DecidableEq, Repr

/-- A row of the `tier_overrides` relation. -/
structure TierOverrideRow where
  tier_id : String
  requirements : Option Requirements
  discounts : Option Discount
  shipping : Option Shipping
  has_product_overrides : Bool
deriving DecidableEq, Repr

/-- A row of the `tier_product_overrides` relation. -/
structure TierProductOverrideRow where
  tier_id : String
  product_id : String
  override_price : Option ℚ
  min_purchase : Option Nat
  max_purchase : Option Nat
  allow_wish_requests : Bool
  wish_request_min : Option Nat
  wish_request_max : Option Nat
deriving DecidableEq, Repr

/-- A row of the `customer_tiers` relation: one persisted customer-tier
assignment. -/
structure CustomerTierRow where
  allocation_id : String
  tier_id : String
  customer_id : String
  source_type : SourceId
  source_id : String
  created_at : String
deriving DecidableEq, Repr

/-- A row of the `allocation_products` relation (the fields read by
`TierProductOverrides`). -/
structure AllocationProductRow where
  id : String
  allocation_id : String
  product_id : String
  override_price : Option ℚ
  min_purchase : Option Nat
  max_purchase : Option Nat
  allow_wish_requests : Bool
  wish_request_min : Option Nat
  wish_request_max : Option Nat
deriving DecidableEq, Repr

/-- The relations of the persistence collaborator that the tiering core
reads and writes. -/
structure Store where
  allocation_tiers : List TierRow
  tier_overrides : List TierOverrideRow
  tier_product_overrides : List TierProductOverrideRow
  customer_tiers : List CustomerTierRow
  allocation_products : List AllocationProductRow
deriving DecidableEq, Repr

/-- The in-memory `ProductOverride` record of `TierProductOverrides.tsx`. -/
structure ProductOverride where
  productId : String
  overridePrice : Option ℚ
  minPurchase : Option Nat
  maxPurchase : Option Nat
  allowWishRequests : Bool
  wishRequestMin : Option Nat
  wishRequestMax : Option Nat
deriving DecidableEq, Repr

/-! ### Tier deletion (`deleteTier`) and override listing -/

/-- Modelled from the spec: the persistence layer's referential cascade.
The Supabase schema is not part of `src/`; per §3 (Tier lifecycle) and
§4.3, deleting a tier "cascade-delete[s] its override bundle and product
overrides and membership records (referential cleanup owned by the
persistence layer)". -/
def cascadeTierCleanup (tierId : String) (s : Store) : Store :=
  { s with
    tier_overrides := s.tier_overrides.filter (fun r => r.tier_id != tierId),
    tier_product_overrides :=
      s.tier_product_overrides.filter (fun r => r.tier_id != tierId),
    customer_tiers := s.customer_tiers.filter (fun r => r.tier_id != tierId) }

/-- `deleteTier` of `AllocationTiers.tsx`: issue a delete on
`allocation_tiers` by id; the dependent rows disappear through the store's
cascade (`cascadeTierCleanup`). -/
def deleteTier (tierId : String) (s : Store) : Store :=
  let s1 := cascadeTierCleanup tierId s
  { s1 with
    allocation_tiers := s1.allocation_tiers.filter (fun t => t.id != tierId) }

/-- The override map built by `fetchProducts` in `TierProductOverrides.tsx`:
the tier's `tier_product_overrides` rows keyed by product id (rendered here
as an association list in row order). -/
def listOverrides (tierId : String) (s : Store) :
    List (String × ProductOverride) :=
  (s.tier_product_overrides.filter (fun r => r.tier_id == tierId)).map
    (fun r =>
      (r.product_id,
        { productId := r.product_id
          overridePrice := r.override_price
          minPurchase := r.min_purchase
          maxPurchase := r.max_purchase
          allowWishRequests := r.allow_wish_requests
          wishRequestMin := r.wish_request_min
          wishRequestMax := r.wish_request_max }))

/-! ### Saving a tier's product overrides (`TierProductOverrides.handleSubmit`,
edit mode) -/

/-- The row built for insertion by `handleSubmit`'s `overridesToInsert`. -/
def productOverrideRow (tierId : String) (o : ProductOverride) :
    TierProductOverrideRow :=
  { tier_id := tierId
    product_id := o.productId
    override_price := o.overridePrice
    min_purchase := o.minPurchase
    max_purchase := o.maxPurchase
    allow_wish_requests := o.allowWishRequests
    wish_request_min := o.wishRequestMin
    wish_request_max := o.wishRequestMax }

/-- The `tier_overrides` upsert
`{ tier_id: tierId, has_product_overrides: true }`: update the flag of the
existing row for the tier, or insert a fresh row carrying only the flag. -/
def upsertHasProductOverrides (tierId : String) :
    List TierOverrideRow → List TierOverrideRow
  | [] =>
    [{ tier_id := tierId, requirements := none, discounts := none,
       shipping := none, has_product_overrides := true }]
  | r :: rest =>
    if r.tier_id == tierId then { r with has_product_overrides := true } :: rest
    else r :: upsertHasProductOverrides tierId rest

/-- Edit-mode `handleSubmit` of `TierProductOverrides.tsx`: delete every
existing `tier_product_overrides` row of the tier, insert the submitted
override records, then upsert `has_product_overrides: true`. -/
def saveProductOverrides (tierId : String) (ovs : List ProductOverride)
    (s : Store) : Store :=
  let afterDelete :=
    { s with
      tier_product_overrides :=
        s.tier_product_overrides.filter (fun r => r.tier_id != tierId) }
  let afterInsert :=
    { afterDelete with
      tier_product_overrides :=
        afterDelete.tier_product_overrides ++ ovs.map (productOverrideRow tierId) }
  { afterInsert with
    tier_overrides := upsertHasProductOverrides tierId afterInsert.tier_overrides }

/-- The `has_product_overrides` flag of a tier's `tier_overrides` row, when
that row exists. -/
def hasProductOverridesFlag (tierId : String) (s : Store) : Option Bool :=
  (s.tier_overrides.find? (fun r => r.tier_id == tierId)).map
    (fun r => r.has_product_overrides)

/-! ### Tier creation (`AllocationTiers.handleSubmit`) -/

/-- The tier-creation form overrides (`formData.overrides`): a key is
present exactly when the corresponding option is `some`. -/
structure TierFormOverrides where
  requirements : Option Requirements
  discounts : Option Discount
  shipping : Option Shipping
  products : Option Bool
deriving DecidableEq, Repr

/-- `Object.keys(formData.overrides).length > 0`. -/
def TierFormOverrides.hasAnyKey (o : TierFormOverrides) : Bool :=
  o.requirements.isSome || o.discounts.isSome || o.shipping.isSome ||
    o.products.isSome

/-- The tier-creation form (`TierFormData`). -/
structure TierFormData where
  name : String
  level : Nat
  accessStart : String
  accessEnd : String
  overrides : TierFormOverrides
deriving DecidableEq, Repr

/-- The `customerAssignments` flatMap of `handleSubmit`: one
`customer_tiers` row per committed item, carrying the item id as both
`customer_id` and `source_id`. -/
def customerAssignments (allocationId tierId createdAt : String)
    (sources : List SelectedSource) : List CustomerTierRow :=
  (sources.map (fun source =>
    source.items.map (fun item =>
      { allocation_id := allocationId
        tier_id := tierId
        customer_id := item.id
        source_type := source.sourceId
        source_id := item.id
        created_at := createdAt }))).flatten

/-- `handleSubmit` of `AllocationTiers.tsx`: validate the required fields
(JavaScript falsiness: empty string, level 0), then insert the tier row,
the `tier_overrides` row when any override key is set, and the customer
assignment rows. The thrown validation error becomes `Except.error`; on
that path no relation is touched. `tierId` stands for the id generated by
the tier insert, `createdAt` for `new Date().toISOString()`. -/
def handleSubmitTier (allocationId tierId createdAt : String)
    (f : TierFormData) (sources : List SelectedSource) (s : Store) :
    Except String Store :=
  if f.name == "" || f.level == 0 || f.accessStart == "" || f.accessEnd == "" then
    Except.error "Please fill in all required fields"
  else
    let s1 :=
      { s with
        allocation_tiers := s.allocation_tiers ++
          [{ id := tierId
             allocation_id := allocationId
             name := f.name
             level := f.level
             access_start := f.accessStart
             access_end := f.accessEnd
             customer_count := totalCustomers sources }] }
    let s2 :=
      if f.overrides.hasAnyKey then
        { s1 with
          tier_overrides := s1.tier_overrides ++
            [{ tier_id := tierId
               requirements := f.overrides.requirements
               discounts := f.overrides.discounts
               shipping := f.overrides.shipping
               has_product_overrides := f.overrides.products.getD false }] }
      else s1
    let s3 :=
      if sources.isEmpty then s2
      else
        { s2 with
          customer_tiers := s2.customer_tiers ++
            customerAssignments allocationId tierId createdAt sources }
    Except.ok s3

/-! ### Listing tiers (`fetchTiers`) -/

/-- Modelled from the spec: the persistence collaborator's "ascending sort
by one column" (§6), requested by `fetchTiers` via
`order('level', { ascending: true })`; rendered as a stable insertion
sort so that ties keep row (creation) order. -/
def insertByLevel (t : TierRow) : List TierRow → List TierRow
  | [] => [t]
  | u :: rest =>
    if u.level ≤ t.level then u :: insertByLevel t rest else t :: u :: rest

/-- Stable ascending sort of tier rows by `level`. -/
def orderByLevel : List TierRow → List TierRow
  | [] => []
  | t :: rest => insertByLevel t (orderByLevel rest)

/-- `fetchTiers` of `AllocationTiers.tsx`: the allocation's
`allocation_tiers` rows, ordered ascending by `level`. -/
def fetchTiers (allocationId : String) (s : Store) : List TierRow :=
  orderByLevel (s.allocation_tiers.filter (fun t => t.allocation_id == allocationId))

/-! ### Override value resolution (`TierProductOverrides`) -/

/-- The JavaScript `override ?? base` pattern (line 224 of
`TierProductOverrides.tsx`): a defined override fully replaces the base of
one field. -/
def resolveField {V : Type} (base override : Option V) : Option V :=
  match override with
  | some v => some v
  | none => base

/-- Modelled from the spec: the Override Value Resolver of §4.1 applied to
a requirements bundle. The source exhibits the resolver only field by
field (the `??` pattern); this applies `resolveField` independently to
each requirements field. -/
def resolveRequirements (base override : Requirements) : Requirements :=
  { cartMin := resolveField base.cartMin override.cartMin
    cartMax := resolveField base.cartMax override.cartMax
    minAmount := resolveField base.minAmount override.minAmount }

/-- The checkbox state
`overrides[product.id]?.allowWishRequests ?? product.allow_wish_requests`:
the tier-level value when an override record exists for the product, the
product-level default otherwise. -/
def resolvedAllowWishRequests (overrides : String → Option ProductOverride)
    (product : AllocationProductRow) : Bool :=
  match overrides product.id with
  | some o => o.allowWishRequests
  | none => product.allow_wish_requests

/-! ### Editing overrides (`handleOverrideChange`) -/

/-- A single-field override update, one constructor per `ProductOverride`
field that `handleOverrideChange` can touch. -/
inductive OverrideUpdate where
  | setOverridePrice : Option ℚ → OverrideUpdate
  | setMinPurchase : Option Nat → OverrideUpdate
  | setMaxPurchase : Option Nat → OverrideUpdate
  | setAllowWishRequests : Bool → OverrideUpdate
  | setWishRequestMin : Option Nat → OverrideUpdate
  | setWishRequestMax : Option Nat → OverrideUpdate
deriving DecidableEq, Repr

/-- Apply `[field]: value` to an override record. -/
def applyUpdate (o : ProductOverride) : OverrideUpdate → ProductOverride
  | OverrideUpdate.setOverridePrice v => { o with overridePrice := v }
  | OverrideUpdate.setMinPurchase v => { o with minPurchase := v }
  | OverrideUpdate.setMaxPurchase v => { o with maxPurchase := v }
  | OverrideUpdate.setAllowWishRequests b => { o with allowWishRequests := b }
  | OverrideUpdate.setWishRequestMin v => { o with wishRequestMin := v }
  | OverrideUpdate.setWishRequestMax v => { o with wishRequestMax := v }

/-- The fallback record `{ productId, allowWishRequests: false }` spread in
by `handleOverrideChange` when the product has no override yet. -/
def emptyOverride (pid : String) : ProductOverride :=
  { productId := pid, overridePrice := none, minPurchase := none,
    maxPurchase := none, allowWishRequests := false, wishRequestMin := none,
    wishRequestMax := none }

/-- `handleOverrideChange` of `TierProductOverrides.tsx`: update one field
of the product's override record, creating the record from `emptyOverride`
when absent. -/
def handleOverrideChange (ovs : String → Option ProductOverride)
    (pid : String) (u : OverrideUpdate) : String → Option ProductOverride :=
  fun k =>
    if k == pid then some (applyUpdate ((ovs pid).getD (emptyOverride pid)) u)
    else ovs k

/-! ### Helper lemmas -/

/-- Filtering by `p` after keeping only the elements violating `p` leaves
nothing. -/
theorem filter_filter_opposite {α : Type} (p q : α → Bool) (l : List α)
    (h : ∀ a, q a = !(p a)) : (l.filter q).filter p = [] := by
  induction l with
  | nil => rfl
  | cons x xs ih =>
    by_cases hp : p x
    · simp [List.filter_cons, h, hp, ih]
    · simp [List.filter_cons, h, hp, ih]

/-- An entry of another kind survives `upsertSource`. -/
theorem mem_upsertSource_of_ne {cur : SourceId} {items : List SourceItem}
    {e : SelectedSource} {l : List SelectedSource}
    (he : e ∈ l) (hne : e.sourceId ≠ cur) :
    e ∈ upsertSource cur items l := by
  induction l with
  | nil => cases he
  | cons s rest ih =>
    rcases List.mem_cons.mp he with rfl | he2
    · by_cases hs : e.sourceId == cur
      · exact absurd (by simpa using hs) hne
      · simp only [upsertSource, hs, Bool.false_eq_true, if_false]
        exact List.mem_cons_self _ _
    · by_cases hs : s.sourceId == cur
      · simp only [upsertSource, hs, if_true, List.mem_cons]
        exact Or.inr he2
      · simp only [upsertSource, hs, Bool.false_eq_true, if_false, List.mem_cons]
        exact Or.inr (ih he2)

/-- After the `has_product_overrides` upsert, the tier's row exists and its
flag is `true`. -/
theorem upsertHasProductOverrides_flag (tierId : String)
    (l : List TierOverrideRow) :
    ((upsertHasProductOverrides tierId l).find? (fun r => r.tier_id == tierId)).map
        (fun r => r.has_product_overrides) = some true := by
  induction l with
  | nil => simp [upsertHasProductOverrides, List.find?]
  | cons r rest ih =>
    by_cases h : r.tier_id == tierId
    · simp only [upsertHasProductOverrides, h, if_true]
      rw [List.find?_cons_of_pos _ (by simpa using h)]
      simp
    · simp only [upsertHasProductOverrides, h, Bool.false_eq_true, if_false]
      rw [List.find?_cons_of_neg _ (by simpa using h)]
      exact ih

/-- Every row built by `productOverrideRow tierId` carries that tier id, so
the filter by tier id keeps them all. -/
theorem filter_map_productOverrideRow (tierId : String)
    (ovs : List ProductOverride) :
    (ovs.map (productOverrideRow tierId)).filter (fun r => r.tier_id == tierId)
      = ovs.map (productOverrideRow tierId) := by
  induction ovs with
  | nil => rfl
  | cons o rest ih =>
    simp [List.filter_cons, productOverrideRow, ih]

/-- The ordering relation used by the level sort. -/
def LevelLE (a b : TierRow) : Prop := a.level ≤ b.level

/-- `insertByLevel` adds no element besides the inserted one. -/
theorem mem_insertByLevel {x t : TierRow} {l : List TierRow}
    (hx : x ∈ insertByLevel t l) : x = t ∨ x ∈ l := by
  induction l with
  | nil => simpa [insertByLevel] using hx
  | cons v vs ihv =>
    by_cases hv : v.level ≤ t.level
    · simp only [insertByLevel, hv, if_true, List.mem_cons] at hx
      rcases hx with rfl | hx2
      · exact Or.inr (List.mem_cons_self _ _)
      · rcases ihv hx2 with h1 | h1
        · exact Or.inl h1
        · exact Or.inr (List.mem_cons_of_mem _ h1)
    · simp only [insertByLevel, hv, if_false, List.mem_cons] at hx
      rcases hx with rfl | hx2
      · exact Or.inl rfl
      · exact Or.inr (List.mem_cons.mpr hx2)

/-- Inserting into a `LevelLE`-sorted list keeps it sorted. -/
theorem pairwise_insertByLevel (t : TierRow) (l : List TierRow)
    (h : l.Pairwise LevelLE) : (insertByLevel t l).Pairwise LevelLE := by
  induction l with
  | nil => simp [insertByLevel, List.pairwise_singleton]
  | cons u rest ih =>
    rcases List.pairwise_cons.mp h with ⟨hu, hrest⟩
    by_cases hle : u.level ≤ t.level
    · simp only [insertByLevel, hle, if_true]
      refine List.pairwise_cons.mpr ⟨?_, ih hrest⟩
      intro x hx
      rcases mem_insertByLevel hx with rfl | hx2
      · exact hle
      · exact hu x hx2
    · simp only [insertByLevel, hle, if_false]
      refine List.pairwise_cons.mpr ⟨?_, h⟩
      intro x hx
      rcases List.mem_cons.mp hx with rfl | hx2
      · exact le_of_lt (lt_of_not_le hle)
      · exact le_trans (le_of_lt (lt_of_not_le hle)) (hu x hx2)

/-- `orderByLevel` sorts ascending by level. -/
theorem pairwise_orderByLevel (l : List TierRow) :
    (orderByLevel l).Pairwise LevelLE := by
  induction l with
  | nil => exact List.Pairwise.nil
  | cons t rest ih => exact pairwise_insertByLevel t _ ih

/-! ### Concrete fixtures -/

/-- A store with every relation empty. -/
def emptyStore : Store :=
  { allocation_tiers := [], tier_overrides := [], tier_product_overrides := [],
    customer_tiers := [], allocation_products := [] }

/-- A sample allocation-product row whose own wish-request default is
`true`. -/
def sampleProduct : AllocationProductRow :=
  { id := "ap1", allocation_id := "a1", product_id := "sku1",
    override_price := none, min_purchase := none, max_purchase := none,
    allow_wish_requests := true, wish_request_min := none,
    wish_request_max := none }

/-- The committed tag entry produced by selecting the mock tag `t1`. -/
def c3TagEntry : SelectedSource :=
  { sourceId := SourceId.tag,
    items := [{ id := "t1", name := "VIP", count := some 150 }] }

/-- Select tag `t1`, then switch the active kind to `group`. -/
def c3StateGroupActive : TierSelectionState :=
  handleSourceChange SourceId.group
    (handleItemSelect "t1" (handleSourceChange SourceId.tag initialSelectionState))

/-- Continue `c3StateGroupActive`: switch the active kind back to `tag` and
select `t2`. -/
def c3RunState : TierSelectionState :=
  handleItemSelect "t2" (handleSourceChange SourceId.tag c3StateGroupActive)

/-- One committed `group` selection holding the mock group `g1`
(cardinality 500). -/
def c4GroupSelection : List SelectedSource :=
  [{ sourceId := SourceId.group,
     items := [{ id := "g1", name := "West Coast", count := some 500 }] }]

/-- The single assignment row the flattening produces for
`c4GroupSelection`. -/
def c4Row : CustomerTierRow :=
  { allocation_id := "a1", tier_id := "tier1", customer_id := "g1",
    source_type := SourceId.group, source_id := "g1", created_at := "now" }

/-- A tier-creation form whose name is empty. -/
def invalidForm : TierFormData :=
  { name := "", level := 1, accessStart := "2024-01-01T10:00",
    accessEnd := "2024-01-02T10:00",
    overrides := { requirements := none, discounts := none, shipping := none,
                   products := none } }

/-! ### C1 — allocation progress -/

/-- C1: the progress computation of `AllocationOverview` does not
special-case a zero-length window. With `start = end = now` the expression
`((daysTotal - daysRemaining) / daysTotal) * 100` is `0 / 0` and NaN
propagates through the clamp; with `now` one day before the zero-length
window the division yields `-Infinity` and the clamp returns 0 — in
neither case the 100 the specification requires. On a proper window the
clamp formula does hold: a 10-day window 5 days in gives 50. -/
theorem computeProgress_zero_window_no_special_case :
    computeProgress 0 0 0 = JsNum.nan ∧
    computeProgress 0 0 (-msPerDay) = JsNum.fin 0 ∧
    JsNum.nan ≠ JsNum.fin 100 ∧ JsNum.fin 0 ≠ JsNum.fin 100 ∧
    computeProgress 0 (10 * msPerDay) (5 * msPerDay) = JsNum.fin 50 := by
  refine ⟨?_, ?_, by decide, by decide, ?_⟩ <;>
    norm_num [computeProgress, daysTotal, daysRemaining, ceilDiv, msPerDay,
      jsDiv, jsMul100, jsMax0, jsMin100]

/-! ### C2 — tier deletion cascades -/

/-- C2: after `deleteTier tierId`, listing the deleted tier's product
overrides returns the empty mapping (not an error), and no override-bundle
row, product-override row or customer-assignment row for that tier
remains in the store. -/
theorem deleteTier_removes_overrides (tierId : String) (s : Store) :
    listOverrides tierId (deleteTier tierId s) = [] ∧
    (deleteTier tierId s).tier_overrides.filter
        (fun r => r.tier_id == tierId) = [] ∧
    (deleteTier tierId s).tier_product_overrides.filter
        (fun r => r.tier_id == tierId) = [] ∧
    (deleteTier tierId s).customer_tiers.filter
        (fun r => r.tier_id == tierId) = [] := by
  have hpo :
      (s.tier_product_overrides.filter (fun r => r.tier_id != tierId)).filter
        (fun r => r.tier_id == tierId) = [] :=
    filter_filter_opposite _ _ _ (fun a => rfl)
  refine ⟨?_, ?_, ?_, ?_⟩
  · simp only [listOverrides, deleteTier, cascadeTierCleanup]
    rw [hpo]
    rfl
  · simp only [deleteTier, cascadeTierCleanup]
    exact filter_filter_opposite _ _ _ (fun a => rfl)
  · simp only [deleteTier, cascadeTierCleanup]
    exact hpo
  · simp only [deleteTier, cascadeTierCleanup]
    exact filter_filter_opposite _ _ _ (fun a => rfl)

/-! ### C3 — selection accumulation across source-kind switches -/

/-- C3 counterexample: select tag `t1`, switch to `group`, switch back to
`tag`, select `t2`. The claim demands that `t1` and `t2` accumulate; the
code instead replaces the tag entry, leaving only `t2` (the working list
restarts empty on each switch, and the next selection overwrites the
committed entry). -/
theorem switch_back_replaces_committed_selection :
    c3StateGroupActive.selectedSources.map
        (fun s => (s.sourceId, s.items.map (fun i => i.id)))
      = [(SourceId.tag, ["t1"])] ∧
    c3RunState.selectedSources.map
        (fun s => (s.sourceId, s.items.map (fun i => i.id)))
      = [(SourceId.tag, ["t2"])] := by
  exact ⟨rfl, rfl⟩

/-- C3 (amended): switching the active source kind leaves every committed
entry of every kind untouched, and a selection operation never disturbs
the committed entries of kinds other than the active one — so all kinds'
lists stay visible simultaneously. However, the working list restarts
empty on each switch, so after switching away from a kind and back, the
next selection replaces (rather than accumulates with) that kind's earlier
committed list. -/
theorem sourceSwitch_preserves_committed :
    (∀ (source : SourceId) (st : TierSelectionState),
        (handleSourceChange source st).selectedSources = st.selectedSources) ∧
    (∀ (id : String) (st : TierSelectionState) (e : SelectedSource),
        e ∈ st.selectedSources → e.sourceId ≠ st.selectedSource →
        e ∈ (handleItemSelect id st).selectedSources) := by
  constructor
  · intro source st
    rfl
  · intro id st e he hne
    simp only [handleItemSelect]
    repeat' split
    all_goals
      first
      | exact List.mem_filter.mpr ⟨he, by simp only [bne_iff_ne, ne_eq]; exact hne⟩
      | exact mem_upsertSource_of_ne he hne

/-- C3 witness: selecting a group item while `group` is active leaves the
committed tag entry in place. -/
theorem sourceSwitch_preserves_committed_witness :
    c3TagEntry ∈ (handleItemSelect "g1" c3StateGroupActive).selectedSources :=
  sourceSwitch_preserves_committed.2 "g1" c3StateGroupActive c3TagEntry
    (by decide) (by decide)

/-! ### C4 — flattening selections into assignment rows -/

/-- C4 counterexample: a single committed `group` selection of `g1`
(cardinality 500) flattens to exactly one `customer_tiers` row whose
`customer_id` is the source item id `"g1"` itself — not one row per
resolved member customer, and not a customer id distinct from the source
item id. -/
theorem flatten_uses_item_id_as_customer_id :
    customerAssignments "a1" "tier1" "now" c4GroupSelection = [c4Row] ∧
    c4Row.customer_id = c4Row.source_id := by
  exact ⟨rfl, rfl⟩

/-- C4 (amended): the flattening produces exactly one row per committed
source item, and every produced row carries the source item id as both
`customer_id` and `source_id`; no expansion of group/tag/club/query
selections into individual member customers happens in the core. -/
theorem customerAssignments_one_row_per_item
    (aid tid createdAt : String) (sources : List SelectedSource) :
    (∀ r ∈ customerAssignments aid tid createdAt sources,
        r.customer_id = r.source_id) ∧
    (customerAssignments aid tid createdAt sources).length
      = (sources.map (fun s => s.items.length)).sum := by
  constructor
  · intro r hr
    simp only [customerAssignments, List.mem_flatten, List.mem_map] at hr
    rcases hr with ⟨l, ⟨source, hs, rfl⟩, hrl⟩
    rcases List.mem_map.mp hrl with ⟨item, hi, rfl⟩
    rfl
  · induction sources with
    | nil => rfl
    | cons sel rest ih =>
      simp only [customerAssignments, List.map_cons, List.flatten_cons,
        List.length_append, List.length_map, List.sum_cons]
      simp only [customerAssignments] at ih
      omega

/-- C4 witness: the single row produced for the `g1` group selection has
its `customer_id` equal to its `source_id`. -/
theorem customerAssignments_one_row_per_item_witness :
    c4Row.customer_id = c4Row.source_id :=
  (customerAssignments_one_row_per_item "a1" "tier1" "now" c4GroupSelection).1
    c4Row (by decide)

/-! ### C5 — override value resolution -/

/-- C5: a defined override fully replaces the base for its field and an
absent override falls back to the base, independently per field; in
particular the `allowWishRequests` checkbox resolves to the tier override
exactly when an override record exists, and to the product-level default
otherwise — never to `false` unconditionally. The spec's record-level test
(base `{cartMin: 5}`, override `{cartMax: 10}`) resolves to
`{cartMin: 5, cartMax: 10}`. -/
theorem resolveField_override_precedence :
    (∀ (V : Type) (base : Option V) (v : V),
        resolveField base (some v) = some v) ∧
    (∀ (V : Type) (base : Option V), resolveField base none = base) ∧
    (∀ (overrides : String → Option ProductOverride)
        (p : AllocationProductRow), overrides p.id = none →
        resolvedAllowWishRequests overrides p = p.allow_wish_requests) ∧
    (∀ (overrides : String → Option ProductOverride)
        (p : AllocationProductRow) (o : ProductOverride),
        overrides p.id = some o →
        resolvedAllowWishRequests overrides p = o.allowWishRequests) ∧
    resolveRequirements
        { cartMin := some 5, cartMax := none, minAmount := none }
        { cartMin := none, cartMax := some 10, minAmount := none }
      = { cartMin := some 5, cartMax := some 10, minAmount := none } := by
  refine ⟨fun V base v => rfl, fun V base => rfl, ?_, ?_, rfl⟩
  · intro overrides p h
    unfold resolvedAllowWishRequests
    rw [h]
  · intro overrides p o h
    unfold resolvedAllowWishRequests
    rw [h]

/-- C5 witness: with no override record, `sampleProduct` (default `true`)
resolves to `true`; with an explicit `false` record it resolves to
`false`. -/
theorem resolveField_override_precedence_witness :
    resolvedAllowWishRequests (fun _ => none) sampleProduct
        = sampleProduct.allow_wish_requests ∧
    resolvedAllowWishRequests (fun _ => some (emptyOverride "sku1"))
        sampleProduct = (emptyOverride "sku1").allowWishRequests :=
  ⟨resolveField_override_precedence.2.2.1 (fun _ => none) sampleProduct rfl,
   resolveField_override_precedence.2.2.2.1 (fun _ => some (emptyOverride "sku1"))
     sampleProduct (emptyOverride "sku1") rfl⟩

/-! ### C6 — saving overrides replaces the whole set -/

/-- C6: a save replaces the tier's entire stored override set — after any
save the tier's stored rows equal exactly the submitted records, and the
round trip "save a set, then save the empty set" leaves `listOverrides`
empty. -/
theorem saveProductOverrides_replaces_set (tierId : String)
    (ovs : List ProductOverride) (s : Store) :
    (saveProductOverrides tierId ovs s).tier_product_overrides.filter
        (fun r => r.tier_id == tierId) = ovs.map (productOverrideRow tierId) ∧
    listOverrides tierId
        (saveProductOverrides tierId [] (saveProductOverrides tierId ovs s))
      = [] := by
  have h2 : ∀ (l : List TierProductOverrideRow),
      (l.filter (fun r => r.tier_id != tierId)).filter
        (fun r => r.tier_id == tierId) = [] :=
    fun l => filter_filter_opposite (fun r => r.tier_id == tierId) _ l
      (fun a => rfl)
  constructor
  · simp only [saveProductOverrides, List.filter_append]
    rw [h2, filter_map_productOverrideRow]
    rfl
  · simp only [listOverrides, saveProductOverrides, List.map_nil,
      List.append_nil, List.filter_append]
    rw [h2, h2]
    rfl

/-! ### C7 — the hasProductOverrides flag -/

/-- C7: every successful edit-mode save — the empty save included — leaves
the tier's `tier_overrides` row present with `has_product_overrides` set
to `true`; emptying the override set afterwards does not clear it. -/
theorem saveProductOverrides_sets_flag (tierId : String)
    (ovs : List ProductOverride) (s : Store) :
    hasProductOverridesFlag tierId (saveProductOverrides tierId ovs s)
        = some true ∧
    hasProductOverridesFlag tierId
        (saveProductOverrides tierId []
          (saveProductOverrides tierId ovs s)) = some true :=
  ⟨upsertHasProductOverrides_flag tierId _,
   upsertHasProductOverrides_flag tierId _⟩

/-! ### C8 — validation aborts tier creation before any write -/

/-- C8: when the name, level, access start or access end is missing or
empty (JavaScript-falsy), `handleSubmit` throws the validation error
before reaching any insert, so no tier row, override row or assignment row
is written and the store is unchanged. -/
theorem handleSubmitTier_invalid_aborts
    (allocationId tierId createdAt : String) (f : TierFormData)
    (sources : List SelectedSource) (s : Store)
    (h : f.name = "" ∨ f.level = 0 ∨ f.accessStart = "" ∨ f.accessEnd = "") :
    handleSubmitTier allocationId tierId createdAt f sources s
      = Except.error "Please fill in all required fields" := by
  have hc : (f.name == "" || f.level == 0 || f.accessStart == ""
      || f.accessEnd == "") = true := by
    rcases h with h | h | h | h <;> simp [h]
  simp [handleSubmitTier, hc]

/-- C8 witness: submitting the empty-named form against the empty store is
rejected with the validation error. -/
theorem handleSubmitTier_invalid_aborts_witness :
    handleSubmitTier "a1" "t1" "now" invalidForm [] emptyStore
      = Except.error "Please fill in all required fields" :=
  handleSubmitTier_invalid_aborts "a1" "t1" "now" invalidForm [] emptyStore
    (Or.inl rfl)

/-! ### C9 — tiers listed ascending by level -/

/-- C9: `fetchTiers` returns the allocation's tiers sorted ascending by
level, and — being a pure function of the store — repeated calls with no
intervening writes return the identical sequence. -/
theorem fetchTiers_sorted_by_level (allocationId : String) (s : Store) :
    (fetchTiers allocationId s).Pairwise LevelLE ∧
    fetchTiers allocationId s = fetchTiers allocationId s :=
  ⟨pairwise_orderByLevel _, rfl⟩

/-! ### C10 — the first edit of a fresh product override -/

/-- C10 counterexample: when the very first change to a product with no
override record is to the `allowWishRequests` field itself with value
`true`, the created record carries `allowWishRequests = true`, not the
unconditional `false` the claim states. -/
theorem firstChange_allowWishRequests_not_always_false :
    ((handleOverrideChange (fun _ => none) "p1"
          (OverrideUpdate.setAllowWishRequests true)) "p1").map
        (fun o => o.allowWishRequests) = some true ∧
    (some true : Option Bool) ≠ some false :=
  ⟨rfl, by decide⟩

/-- C10 (amended): the first change to any field of a product with no
existing override record creates the record from the
`{ productId, allowWishRequests: false }` fallback — so the boolean is
explicitly `false` for every field except an update of
`allowWishRequests` itself, which carries the assigned value — and once
the record exists, resolution for that product reads the record's boolean
and no longer falls back to the product-level default. -/
theorem handleOverrideChange_fresh_record
    (ovs : String → Option ProductOverride) (pid : String)
    (u : OverrideUpdate) (h : ovs pid = none) :
    (handleOverrideChange ovs pid u) pid
        = some (applyUpdate (emptyOverride pid) u) ∧
    (applyUpdate (emptyOverride pid) u).allowWishRequests
        = (match u with
           | OverrideUpdate.setAllowWishRequests b => b
           | _ => false) ∧
    (∀ (p : AllocationProductRow), p.id = pid →
        resolvedAllowWishRequests (handleOverrideChange ovs pid u) p
          = (applyUpdate (emptyOverride pid) u).allowWishRequests) := by
  refine ⟨?_, ?_, ?_⟩
  · simp [handleOverrideChange, h]
  · cases u <;> rfl
  · intro p hp
    unfold resolvedAllowWishRequests handleOverrideChange
    rw [hp]
    simp [h]

/-- C10 witness: a first price edit on `p1` creates the record with the
boolean `false`, and `sampleProduct` (default `true`) then resolves to
`false`. -/
theorem handleOverrideChange_fresh_record_witness :
    (handleOverrideChange (fun _ => none) "ap1"
          (OverrideUpdate.setOverridePrice (some 10))) "ap1"
        = some (applyUpdate (emptyOverride "ap1")
            (OverrideUpdate.setOverridePrice (some 10))) ∧
    (applyUpdate (emptyOverride "ap1")
        (OverrideUpdate.setOverridePrice (some 10))).allowWishRequests
      = false ∧
    resolvedAllowWishRequests
        (handleOverrideChange (fun _ => none) "ap1"
          (OverrideUpdate.setOverridePrice (some 10))) sampleProduct
      = false := by
  have h := handleOverrideChange_fresh_record (fun _ => none) "ap1"
    (OverrideUpdate.setOverridePrice (some 10)) rfl
  exact ⟨h.1, h.2.1, by rw [h.2.2 sampleProduct rfl, h.2.1]⟩

end OffsetApps
